import Mathlib

/-
Verification of the codex32 core against its specification.

The Python source under app/ is shallowly embedded below: pure helpers
become Lean functions, stateful methods are explicit state transformers,
I/O and OS outcomes are explicit environment parameters, and exceptions
become Except / tagged results.  Section order follows the source layout:
utils.py, bot_registry.py, adaptive_executor.py, container_engine.py,
supervisor.py.
-/

deriving instance DecidableEq for Except

namespace Codex32

/-! ## Python-style string helpers (str.strip, str.lower, str.isdigit) -/

/-- Characters treated as whitespace by Python's str.strip without args. -/
def pyWhitespace (c : Char) : Bool :=
  c = ' ' ∨ c = '\t' ∨ c = '\n' ∨ c = '\r' ∨ c = '\x0b' ∨ c = '\x0c'

/-- Strip of leading and trailing whitespace over a character list. -/
def stripChars (l : List Char) : List Char :=
  ((l.dropWhile pyWhitespace).reverse.dropWhile pyWhitespace).reverse

/-- Model of Python str.strip(). -/
def pyStrip (s : String) : String := ⟨stripChars s.data⟩

/-- Model of Python str.lower() (ASCII case folding suffices here). -/
def pyLower (s : String) : String := ⟨s.data.map Char.toLower⟩

/-- Value of a digit character. -/
def digitVal (c : Char) : Nat := c.toNat - '0'.toNat

/-- Model of Python int() applied to a nonempty string of digit characters. -/
def digitsToNat (l : List Char) : Nat :=
  l.foldl (fun acc c => acc * 10 + digitVal c) 0

/-! ## JSON-ish values

A Python dict destined for json.dump is modelled as a tree of values in
which datetime objects may occur; json.dump fails exactly on the datetime
nodes, so serializability is the absence of datetime anywhere.  -/

/-- Values that can appear in a bot record dict (datetime included). -/
inductive JVal where
  | null : JVal
  | bool (b : Bool) : JVal
  | int (n : Int) : JVal
  | str (s : String) : JVal
  | datetime (t : Nat) : JVal
  | arr (xs : List JVal) : JVal
  | obj (fs : List (String × JVal)) : JVal

/-- ISO rendering of a modelled datetime (injective placeholder clock). -/
def isoOf (t : Nat) : String := "iso:" ++ toString t

mutual

/-- Truth of "this value contains no datetime anywhere", i.e. json.dump
    succeeds on it. -/
def noDT : JVal → Bool
  | .null => true
  | .bool _ => true
  | .int _ => true
  | .str _ => true
  | .datetime _ => false
  | .arr xs => noDTList xs
  | .obj fs => noDTFields fs

/-- List version of noDT. -/
def noDTList : List JVal → Bool
  | [] => true
  | x :: xs => noDT x && noDTList xs

/-- Field-list version of noDT. -/
def noDTFields : List (String × JVal) → Bool
  | [] => true
  | (_, v) :: fs => noDT v && noDTFields fs

end

/-- A bot record as the registry sees it: a Python dict. -/
abbrev PyDict := List (String × JVal)

/-- Embedding of bot_registry._normalize_for_json: replace every
    TOP-LEVEL datetime value by its ISO string; nested values untouched. -/
def normalize_for_json (bot : PyDict) : PyDict :=
  bot.map fun kv =>
    match kv with
    | (k, .datetime t) => (k, .str (isoOf t))
    | (k, v) => (k, v)

/-- Model of Python str() on a JVal, as used for str(bot.get("id", "")). -/
def pyStr : JVal → String
  | .null => "None"
  | .bool b => if b then "True" else "False"
  | .int n => toString n
  | .str s => s
  | .datetime t => isoOf t
  | .arr _ => "[...]"
  | .obj _ => "{...}"

/-- Lookup with a default, modelling dict.get(key, default). -/
def dictGet (d : PyDict) (k : String) (dflt : JVal) : JVal :=
  match d.lookup k with
  | some v => v
  | none => dflt

/-! ## Bot registry (bot_registry.SecureRegistry)

The in-memory cache is an association list from (stripped) bot id to the
stored record dict; register_bot and get_bot_by_id are embedded directly.
Persistence via atomic_save_json is modelled separately (SaveEnv section);
register_bot below covers the cache mutation and the stored value. -/

/-- Registry cache: bot id → stored record dict. -/
abbrev Cache := List (String × PyDict)

/-- Embedding of SecureRegistry.register_bot (cache part): compute the
    stripped string id, reject empty id or duplicates, store the
    normalized record. -/
def register_bot (cache : Cache) (bot : PyDict) : Except String Cache :=
  let botId := pyStrip (pyStr (dictGet bot "id" (.str "")))
  if botId = "" then
    .error "Bot must include non-empty 'id'"
  else if (cache.lookup botId).isSome then
    .error ("Bot with ID '" ++ botId ++ "' already exists")
  else
    .ok ((botId, normalize_for_json bot) :: cache)

/-- Embedding of SecureRegistry.get_bot_by_id. -/
def get_bot_by_id (cache : Cache) (botId : String) : Option PyDict :=
  cache.lookup botId

/-! ## Memory limit parser (adaptive_executor._parse_mem_limit_mb) -/

/-- Truth of raw.endswith("gi") on a character list. -/
def endsWithGi (l : List Char) : Bool :=
  match l.reverse with
  | 'i' :: 'g' :: _ => true
  | _ => false

/-- Embedding of _parse_mem_limit_mb: strip + lowercase, collect ALL digit
    characters in order, default 512 when empty or digit-free, multiply by
    1024 on a "gi" suffix. -/
def parse_mem_limit_mb (v : String) : Nat :=
  let raw := (pyLower (pyStrip v)).data
  if raw = [] then 512
  else
    let digits := raw.filter Char.isDigit
    if digits = [] then 512
    else
      let n := digitsToNat digits
      if endsWithGi raw then n * 1024 else n

/-- Modelled from the claim's words: the same parser but multiplying the
    LEADING integer (maximal digit prefix) by 1024 on a "gi" suffix.  Used
    only to compare the claim's general sentence with the source. -/
def parse_mem_claimed (v : String) : Nat :=
  let raw := (pyLower (pyStrip v)).data
  if raw = [] then 512
  else
    let lead := raw.takeWhile Char.isDigit
    if raw.filter Char.isDigit = [] then 512
    else
      let n := digitsToNat lead
      if endsWithGi raw then n * 1024 else n

/-- Modelled from the claim as amended: identical to the source parser but
    phrased from the spec side, with "digit-free" written via any. -/
def parse_mem_amended (v : String) : Nat :=
  let raw := (pyLower (pyStrip v)).data
  if raw.isEmpty then 512
  else if ¬ raw.any Char.isDigit then 512
  else
    let n := digitsToNat (raw.filter Char.isDigit)
    if endsWithGi raw then n * 1024 else n

/-! ## Atomic JSON store (utils.atomic_save_json)

File-system outcomes are an explicit environment.  The branch structure
mirrors the Python function:
  - makedirs failure: no temp file was created yet;
  - NamedTemporaryFile failure: no temp file exists;
  - json.dump failure: the temp file exists but tmp_path was never
    assigned (it is assigned after the dump), so the cleanup guard
    "tmp_path in locals()" is false and the temp file is left behind;
  - fsync or os.replace failure: tmp_path is assigned, cleanup removes
    the temp file unless the removal itself fails;
  - the final "raise IOError(...) from e" runs on EVERY failure,
    whether or not the cleanup succeeded. -/

/-- Environment of OS outcomes during one atomic_save_json call. -/
structure SaveEnv where
  mkdirFails : Bool
  tmpCreateFails : Bool
  dumpFails : Bool
  fsyncFails : Bool
  renameFails : Bool
  cleanupFails : Bool
deriving DecidableEq, Repr

/-- Observable outcome of one atomic_save_json call. -/
structure SaveResult where
  raisesError : Bool
  tmpLeft : Bool
deriving DecidableEq, Repr

/-- Embedding of utils.atomic_save_json over the outcome environment. -/
def atomic_save_json (env : SaveEnv) : SaveResult :=
  if env.mkdirFails then { raisesError := true, tmpLeft := false }
  else if env.tmpCreateFails then { raisesError := true, tmpLeft := false }
  else if env.dumpFails then { raisesError := true, tmpLeft := true }
  else if env.fsyncFails || env.renameFails then
    { raisesError := true, tmpLeft := env.cleanupFails }
  else { raisesError := false, tmpLeft := false }

/-- Truth of "some step of the save failed". -/
def saveFailed (env : SaveEnv) : Bool :=
  env.mkdirFails || env.tmpCreateFails || env.dumpFails ||
    env.fsyncFails || env.renameFails

/-! ## Bot records as the executor and supervisor see them

The executor and supervisor work on bot dicts whose relevant keys are a
fixed set; they are modelled as a structure (the registry-level dict
embedding above is separate because C5/C7 are about arbitrary dicts). -/

/-- Bot record fields touched by the executor and supervisor. -/
structure BotRec where
  id : String
  name : String
  status : String
  lastError : Option String
  errorCount : Nat
  deploymentType : String
  processId : Option Nat
  k8sPodName : Option String
  startedAt : Option Nat
  stoppedAt : Option Nat
  updatedAt : Option Nat
  perfEvents : List String
deriving DecidableEq, Repr

/-- Registry as the executor sees it: records by id plus a persist
    counter (each update_bot triggers one atomic save). -/
structure Registry where
  bots : List (String × BotRec)
  saves : Nat
deriving DecidableEq, Repr

/-- Lookup a bot record, modelling registry.get_bot_by_id. -/
def regGet (reg : Registry) (botId : String) : Option BotRec :=
  reg.bots.lookup botId

/-- Model of registry.update_bot: replace the record by id and persist. -/
def regUpdate (reg : Registry) (b : BotRec) : Registry :=
  { bots := reg.bots.map (fun kv => if kv.1 = b.id then (kv.1, b) else kv),
    saves := reg.saves + 1 }

/-! ## Adaptive executor (adaptive_executor.AdaptiveExecutor) -/

/-- Executor tracking maps. -/
structure ExecState where
  runningProcesses : List (String × Nat)
  runningPsutil : List (String × Nat)
  processCreationTime : List (String × Nat)
  runningContainers : List (String × String)
deriving DecidableEq, Repr

/-- Model of dict.pop(key, None): drop every binding of the key. -/
def popKey {α : Type} (l : List (String × α)) (k : String) : List (String × α) :=
  l.filter (fun kv => kv.1 ≠ k)

/-- Embedding of AdaptiveExecutor.is_bot_running. -/
def is_bot_running (ex : ExecState) (botId : String) : Bool :=
  (ex.runningProcesses.lookup botId).isSome ||
    (ex.runningContainers.lookup botId).isSome

/-- Truth of "deployment type selects the container path" (run_bot lowers
    the raw string and compares against the two container modes). -/
def isContainerMode (dt : String) : Bool :=
  pyLower dt = "custom_container" || pyLower dt = "container"

/-- Python exception classes distinguished by run_bot's handlers. -/
inductive PyErr where
  | fileNotFound (msg : String)
  | subprocessErr (msg : String)
  | containerErr (msg : String)
  | otherErr (msg : String)
deriving DecidableEq, Repr

/-- Message of a modelled Python exception (str(e)). -/
def pyErrMsg : PyErr → String
  | .fileNotFound m => m
  | .subprocessErr m => m
  | .containerErr m => m
  | .otherErr m => m

/-- Environment of external outcomes during one run_bot call. -/
structure RunEnv where
  scriptExists : Bool
  containerOutcome : Except String Nat
  localOutcome : Except PyErr Nat
deriving DecidableEq, Repr

/-- Observable outcome of one run_bot call: return value or propagated
    exception, the final bot variable, the sequence of update_bot calls
    (persist trace, in order), and the tracking maps afterwards. -/
structure RunResult where
  result : Except PyErr Bool
  bot : BotRec
  trace : List BotRec
  exec : ExecState
deriving DecidableEq, Repr

/-- Common body of run_bot's outer exception handlers (lines 131-153):
    FileNotFoundError marks FAILED, the rest mark ERROR; each records
    str(e) as last_error, increments error_count, persists, re-raises. -/
def outerHandle (e : PyErr) (b : BotRec) : BotRec :=
  match e with
  | .fileNotFound m =>
      { b with status := "failed", lastError := some m,
               errorCount := b.errorCount + 1 }
  | _ =>
      { b with status := "error", lastError := some (pyErrMsg e),
               errorCount := b.errorCount + 1 }

/-- Embedding of AdaptiveExecutor.run_bot.  now is the instant used for
    every timestamp taken during the call; containerName is the name used
    for container tracking (bot-&lt;id&gt; in the source). -/
def run_bot (env : RunEnv) (ex : ExecState) (bot0 : BotRec) (now : Nat) : RunResult :=
  if ¬ env.scriptExists then
    let m := "Bot script not found"
    let b := outerHandle (.fileNotFound m) bot0
    { result := .error (.fileNotFound m), bot := b, trace := [b], exec := ex }
  else
    let b1 : BotRec := { bot0 with status := "deploying", updatedAt := some now }
    if isContainerMode bot0.deploymentType then
      match env.containerOutcome with
      | .ok pid =>
          let contName := "bot-" ++ bot0.id
          let b2 : BotRec :=
            { b1 with status := "running", processId := some pid,
                      k8sPodName := some contName, startedAt := some now,
                      updatedAt := some now }
          { result := .ok true, bot := b2, trace := [b1, b2],
            exec := { ex with runningContainers :=
                        (bot0.id, contName) :: popKey ex.runningContainers bot0.id } }
      | .error e =>
          let b3 : BotRec :=
            { b1 with lastError := some ("Container failed; fallback to local: " ++ e),
                      errorCount := b1.errorCount + 1 }
          match env.localOutcome with
          | .ok pid =>
              let b4 : BotRec :=
                { b3 with status := "running", processId := some pid,
                          startedAt := some now, updatedAt := some now }
              { result := .ok true, bot := b4, trace := [b1, b3, b4],
                exec := { ex with
                  runningProcesses := (bot0.id, pid) :: popKey ex.runningProcesses bot0.id,
                  runningPsutil := (bot0.id, pid) :: popKey ex.runningPsutil bot0.id,
                  processCreationTime := (bot0.id, now) :: popKey ex.processCreationTime bot0.id } }
          | .error le =>
              let b5 : BotRec :=
                { b3 with status := "error",
                          lastError := some ("Container failed (" ++ e ++
                            "); local fallback failed (" ++ pyErrMsg le ++ ")"),
                          errorCount := b3.errorCount + 1, updatedAt := some now }
              let b6 := outerHandle le b5
              { result := .error le, bot := b6, trace := [b1, b3, b5, b6], exec := ex }
    else
      match env.localOutcome with
      | .ok pid =>
          let b2 : BotRec :=
            { b1 with status := "running", processId := some pid,
                      startedAt := some now, updatedAt := some now }
          { result := .ok true, bot := b2, trace := [b1, b2],
            exec := { ex with
              runningProcesses := (bot0.id, pid) :: popKey ex.runningProcesses bot0.id,
              runningPsutil := (bot0.id, pid) :: popKey ex.runningPsutil bot0.id,
              processCreationTime := (bot0.id, now) :: popKey ex.processCreationTime bot0.id } }
      | .error le =>
          let b2 := outerHandle le b1
          { result := .error le, bot := b2, trace := [b1, b2], exec := ex }

/-- Environment of external outcomes during one stop_bot call. -/
structure StopBotEnv where
  contStop1 : Option Bool
  contStop2 : Option Bool
  procKillFails : Bool
  errMsg : String
deriving DecidableEq, Repr

/-- Embedding of AdaptiveExecutor.stop_bot.  The four tracking maps are
    popped unconditionally at entry (source lines 420-423); the
    container / process branches then follow the source, with OS and
    engine outcomes drawn from the environment. -/
def stop_bot (ex : ExecState) (reg : Registry) (botId reason : String)
    (env : StopBotEnv) (now : Nat) : Bool × ExecState × Registry :=
  let containerName := ex.runningContainers.lookup botId
  let processHandle := ex.runningProcesses.lookup botId
  let ex1 : ExecState :=
    { runningProcesses := popKey ex.runningProcesses botId,
      runningPsutil := popKey ex.runningPsutil botId,
      processCreationTime := popKey ex.processCreationTime botId,
      runningContainers := popKey ex.runningContainers botId }
  let bot := regGet reg botId
  match containerName with
  | some _ =>
      match env.contStop1 with
      | none => (false, ex1, reg)
      | some ok1 =>
          if ok1 then
            match bot with
            | some b =>
                (true, ex1, regUpdate reg
                  { b with status := "stopped", stoppedAt := some now,
                           perfEvents := b.perfEvents ++ [reason] })
            | none => (true, ex1, reg)
          else
            match env.contStop2 with
            | none => (false, ex1, reg)
            | some ok2 =>
                match bot with
                | some b =>
                    (ok2, ex1, regUpdate reg
                      { b with status := "stopped", stoppedAt := some now,
                               perfEvents := b.perfEvents ++ [reason] })
                | none => (ok2, ex1, reg)
  | none =>
      match processHandle with
      | none => (false, ex1, reg)
      | some _ =>
          if env.procKillFails then
            match bot with
            | some b =>
                (false, ex1, regUpdate reg
                  { b with status := "error",
                           lastError := some ("Stop failed: " ++ env.errMsg) })
            | none => (false, ex1, reg)
          else
            match bot with
            | some b =>
                (true, ex1, regUpdate reg
                  { b with status := "stopped", stoppedAt := some now,
                           perfEvents := b.perfEvents ++ [reason] })
            | none => (true, ex1, reg)

/-! ## Container engine (container_engine.Container / ContainerEngine) -/

/-- Container lifecycle states. -/
inductive ContState where
  | created
  | running
  | paused
  | stopped
  | exited
  | failed
deriving DecidableEq, Repr

/-- Runtime metadata of a container (the fields Container.stop touches). -/
structure ContainerMeta where
  name : String
  state : ContState
  processId : Option Nat
  startedAt : Option Nat
  stoppedAt : Option Nat
  exitCode : Option Int
deriving DecidableEq, Repr

/-- A container: metadata plus the child-process handle (none until
    start() assigns self.process). -/
structure Container where
  meta : ContainerMeta
  processHandle : Option Nat
deriving DecidableEq, Repr

/-- Environment of OS outcomes during one Container.stop call:
    pollResult is the final self.process.poll() value recorded as the
    exit code. -/
structure ContStopEnv where
  signalFails : Bool
  pollResult : Option Int
deriving DecidableEq, Repr

/-- Embedding of Container.stop: no process means immediate true; else
    signal, poll, record the poll result as exit code, state EXITED,
    stopped_at; any OS error is caught and turns into false. -/
def containerStop (c : Container) (env : ContStopEnv) (now : Nat) :
    Bool × Container :=
  match c.processHandle with
  | none => (true, c)
  | some _ =>
      if env.signalFails then (false, c)
      else
        (true, { c with meta :=
          { c.meta with exitCode := env.pollResult, state := .exited,
                        stoppedAt := some now } })

/-- Engine state: containers by name. -/
abbrev Engine := List (String × Container)

/-- Embedding of ContainerEngine.stop_container: unknown names raise
    ValueError; otherwise delegate to Container.stop and store the
    updated container. -/
def stop_container (eng : Engine) (name : String) (env : ContStopEnv)
    (now : Nat) : Except String (Bool × Engine) :=
  match eng.lookup name with
  | none => .error ("Container " ++ name ++ " not found")
  | some c =>
      let r := containerStop c env now
      .ok (r.1, eng.map (fun kv => if kv.1 = name then (kv.1, r.2) else kv))

/-! ## Supervisor (supervisor.BotSupervisor) -/

/-- Supervisor-internal restart state for one bot. -/
structure RestartState where
  failures : Nat
  lastAttemptAt : Option Nat
  nextAllowedAt : Option Nat
deriving DecidableEq, Repr

/-- Fresh RestartState (dataclass defaults). -/
def freshRestartState : RestartState :=
  { failures := 0, lastAttemptAt := none, nextAllowedAt := none }

/-- An incident as recorded by BotSupervisor._record. -/
structure Incident where
  botId : String
  kind : String
  message : String
deriving DecidableEq, Repr

/-- Environment of executor outcomes during one _handle_unhealthy call:
    result of the first run_bot attempt and of the fallback attempt
    (none = returned True, some e = raised with message e). -/
structure HealEnv where
  firstRun : Option String
  fallbackRun : Option String
deriving DecidableEq, Repr

/-- Observable outcome of one _handle_unhealthy call. -/
structure HealResult where
  bot : BotRec
  st : RestartState
  incidents : List Incident
  writes : List BotRec
  runCalls : Nat
  stopCalled : Bool
deriving DecidableEq, Repr

/-- Quarantine message of supervisor.py line 209. -/
def quarantineMsg (n : Nat) : String :=
  "Supervisor quarantined bot after " ++ toString n ++ " failed heal attempts"

/-- Truth of "the backoff gate lets this call through" (the source
    returns when next_allowed_at is set and now < next_allowed_at). -/
def gateOpen (st : RestartState) (now : Nat) : Bool :=
  match st.nextAllowedAt with
  | none => true
  | some t => t ≤ now

/-- Backoff delay in seconds: min(60, 2 ** failures). -/
def backoffDelay (failures : Nat) : Nat := min 60 (2 ^ failures)

/-- Embedding of BotSupervisor._handle_unhealthy. -/
def handle_unhealthy (maxFailures : Nat) (bot : BotRec) (st : RestartState)
    (now : Nat) (env : HealEnv) : HealResult :=
  if ¬ gateOpen st now then
    { bot := bot, st := st, incidents := [], writes := [],
      runCalls := 0, stopCalled := false }
  else
    let st1 : RestartState :=
      { st with failures := st.failures + 1, lastAttemptAt := some now }
    if st1.failures > maxFailures then
      let b1 : BotRec :=
        { bot with status := "error",
                   lastError := some (quarantineMsg st1.failures),
                   updatedAt := some now }
      { bot := b1, st := st1,
        incidents := [⟨b1.id, "quarantined", quarantineMsg st1.failures⟩],
        writes := [b1], runCalls := 0, stopCalled := false }
    else
      let inc0 : Incident := ⟨bot.id, "unhealthy", "Bot unhealthy; attempting self-heal"⟩
      let st2 : RestartState :=
        { st1 with nextAllowedAt := some (now + backoffDelay st1.failures) }
      match env.firstRun with
      | none =>
          { bot := bot, st := st2,
            incidents := [inc0, ⟨bot.id, "restart", "Restarted bot successfully"⟩],
            writes := [], runCalls := 1, stopCalled := true }
      | some e =>
          let incs1 := [inc0, ⟨bot.id, "restart_failed", "Restart failed: " ++ e⟩]
          if isContainerMode bot.deploymentType then
            let b2 : BotRec :=
              { bot with deploymentType := "local_process", updatedAt := some now }
            match env.fallbackRun with
            | none =>
                { bot := b2, st := st2,
                  incidents := incs1 ++
                    [⟨b2.id, "fallback", "Fell back to local process and restarted successfully"⟩],
                  writes := [b2], runCalls := 2, stopCalled := true }
            | some e2 =>
                { bot := b2, st := st2,
                  incidents := incs1 ++
                    [⟨b2.id, "fallback_failed", "Fallback restart failed: " ++ e2⟩],
                  writes := [b2], runCalls := 2, stopCalled := true }
          else
            { bot := bot, st := st2, incidents := incs1, writes := [],
              runCalls := 1, stopCalled := true }

/-- Truth of "tick supervises this bot" (source line 164: only statuses
    RUNNING and DEPLOYING pass the filter). -/
def tickSupervises (b : BotRec) : Bool :=
  b.status = "running" ∨ b.status = "deploying"

/-- RestartState transition of one _handle_unhealthy call (the state
    component of handle_unhealthy does not depend on the executor
    outcomes or the bot). -/
def stStep (mf : Nat) (st : RestartState) (now : Nat) : RestartState :=
  if ¬ gateOpen st now then st
  else
    let st1 : RestartState :=
      { st with failures := st.failures + 1, lastAttemptAt := some now }
    if st1.failures > mf then st1
    else { st1 with nextAllowedAt := some (now + backoffDelay st1.failures) }

/-- Fold of repeated _handle_unhealthy calls: each step supplies the
    wall-clock instant and the executor outcomes; incidents and registry
    writes accumulate in order. -/
def runSteps (mf : Nat) (bot : BotRec) (st : RestartState) :
    List (Nat × HealEnv) → BotRec × RestartState × List Incident × List BotRec
  | [] => (bot, st, [], [])
  | (t, e) :: rest =>
      let r := handle_unhealthy mf bot st t e
      let rec' := runSteps mf r.bot r.st rest
      (rec'.1, rec'.2.1, r.incidents ++ rec'.2.2.1, r.writes ++ rec'.2.2.2)

/-- Truth of "every step of the sequence passes the backoff gate". -/
def allGated (mf : Nat) : RestartState → List (Nat × HealEnv) → Bool
  | _, [] => true
  | st, (t, _) :: rest => gateOpen st t && allGated mf (stStep mf st t) rest

/-! ## Auxiliary definitions used by the theorems -/

/-- Count of quarantined incidents in a list. -/
def countQuar (l : List Incident) : Nat :=
  (l.filter (fun i => i.kind = "quarantined")).length

/-- Truth of "top-level normalization makes this value serializable":
    the value is itself a datetime (normalized away) or datetime-free. -/
def topNormalizable (v : JVal) : Bool :=
  match v with
  | .datetime _ => true
  | v => noDT v

/-- Sample bot record used by concrete witnesses. -/
def sampleBot : BotRec :=
  { id := "b1", name := "My Bot", status := "running", lastError := none,
    errorCount := 0, deploymentType := "custom_container",
    processId := some 41, k8sPodName := none, startedAt := none,
    stoppedAt := none, updatedAt := none, perfEvents := [] }

/-- Sample executor tracking state used by concrete witnesses. -/
def sampleExec : ExecState :=
  { runningProcesses := [("b9", 77)], runningPsutil := [("b9", 77)],
    processCreationTime := [("b9", 3)], runningContainers := [("b7", "bot-b7")] }

/-- Sample registry used by concrete witnesses. -/
def sampleReg : Registry :=
  { bots := [("b1", sampleBot)], saves := 0 }

/-! ## Theorems -/

/-- Equational facts about popKey used below. -/
theorem lookup_popKey {α : Type} (l : List (String × α)) (k : String) :
    (popKey l k).lookup k = none := by
  induction l with
  | nil => rfl
  | cons kv rest ih =>
      by_cases h : kv.1 = k
      · simpa [popKey, List.filter_cons, h] using ih
      · have h2 : (k == kv.1) = false := by
          simp [beq_iff_eq]
          exact fun e => h e.symm
        simpa [popKey, List.filter_cons, h, List.lookup, h2] using ih

/-- C6 counterexample: the source parser concatenates ALL digit
    characters before applying the Gi multiplier, so on "1a2gi" it yields
    12 * 1024 = 12288, while the claim's "multiply the leading integer by
    1024" yields 1 * 1024 = 1024. -/
theorem C6_counterexample :
    parse_mem_limit_mb "1a2gi" = 12288 ∧ parse_mem_claimed "1a2gi" = 1024 ∧
      parse_mem_limit_mb "1a2gi" ≠ parse_mem_claimed "1a2gi" :=
  ⟨rfl, rfl, by decide⟩

/-- C6 (amended): the executor's memory-limit parser satisfies the five
    quoted test vectors, and in general it strips whitespace, lowercases,
    forms the integer from ALL digit characters in order, multiplies it
    by 1024 when the string ends in "gi", returns it unchanged otherwise,
    and returns the default 512 for empty or digit-free input. -/
theorem C6_parse_mem_limit :
    parse_mem_limit_mb "512Mi" = 512 ∧ parse_mem_limit_mb "1Gi" = 1024 ∧
    parse_mem_limit_mb "1024" = 1024 ∧ parse_mem_limit_mb "" = 512 ∧
    parse_mem_limit_mb "abc" = 512 ∧
    ∀ s, parse_mem_limit_mb s = parse_mem_amended s := by
  refine ⟨rfl, rfl, rfl, rfl, rfl, fun s => ?_⟩
  unfold parse_mem_limit_mb parse_mem_amended
  by_cases h1 : (pyLower (pyStrip s)).data = []
  · simp [h1]
  · by_cases h2 : (pyLower (pyStrip s)).data.filter Char.isDigit = []
    · have h3 : ¬ (pyLower (pyStrip s)).data.any Char.isDigit = true := by
        rw [List.any_eq_true]
        rintro ⟨a, ha, hd⟩
        exact absurd hd (by simpa using List.filter_eq_nil_iff.mp h2 a ha)
      simp [h1, h2, h3]
    · have h3 : (pyLower (pyStrip s)).data.any Char.isDigit = true := by
        rcases List.exists_mem_of_ne_nil _ h2 with ⟨a, ha⟩
        rcases List.mem_filter.mp ha with ⟨hm, hd⟩
        exact List.any_eq_true.mpr ⟨a, hm, hd⟩
      simp [h1, h2, h3]

/-- C4 counterexample: with a failing fsync and a succeeding temp-file
    cleanup, atomic_save_json still raises IOError ("raise IOError(...)
    from e" runs on every failure), refuting "fails with an I/O error
    only when both the write and the cleanup fail". -/
theorem C4_counterexample :
    ¬ (∀ env : SaveEnv, saveFailed env = true →
        (atomic_save_json env).tmpLeft = false ∧
        (env.cleanupFails = false → (atomic_save_json env).raisesError = false)) := by
  intro h
  have h2 := h ⟨false, false, false, true, false, false⟩ (by decide)
  exact absurd (h2.2 rfl) (by decide)

/-- C4 (amended): atomic_save_json raises an I/O error on EVERY failure,
    regardless of the cleanup outcome; on success no temp file is left
    and no error is raised; a failure at fsync or rename removes the temp
    file exactly when the removal succeeds; a failure during the JSON
    write leaves the temp file behind (tmp_path is assigned only after
    json.dump, so the cleanup guard skips it). -/
theorem C4_atomic_save (env : SaveEnv) :
    ((atomic_save_json env).raisesError = saveFailed env) ∧
    (saveFailed env = false → (atomic_save_json env).tmpLeft = false) ∧
    ((env.fsyncFails || env.renameFails) = true → env.mkdirFails = false →
      env.tmpCreateFails = false → env.dumpFails = false →
      (atomic_save_json env).tmpLeft = env.cleanupFails) ∧
    (env.dumpFails = true → env.mkdirFails = false → env.tmpCreateFails = false →
      (atomic_save_json env).tmpLeft = true) := by
  rcases env with ⟨m, tc, d, f, r, c⟩
  cases m <;> cases tc <;> cases d <;> cases f <;> cases r <;> cases c <;> decide

/-- C4 witness: the amended theorem applied at the fsync-fails,
    cleanup-succeeds environment. -/
theorem C4_atomic_save_witness :
    (atomic_save_json ⟨false, false, false, true, false, false⟩).tmpLeft = false ∧
    (atomic_save_json ⟨false, false, false, true, false, false⟩).raisesError = true :=
  ⟨(C4_atomic_save ⟨false, false, false, true, false, false⟩).2.2.1 rfl rfl rfl rfl,
   (C4_atomic_save ⟨false, false, false, true, false, false⟩).1⟩

/-- C5 counterexample: a record whose deployment_config contains a nested
    datetime is stored by register_bot via _normalize_for_json, which only
    rewrites top-level values; the stored dict still contains a datetime,
    so json serialization fails on it. -/
theorem C5_counterexample :
    ¬ (∀ bot : PyDict, noDT (.obj (normalize_for_json bot)) = true) := by
  intro h
  exact absurd
    (h [("id", .str "b1"), ("deployment_config", .obj [("created_at", .datetime 5)])])
    (by decide)

/-- C5 (amended): _normalize_for_json guarantees a JSON-serializable
    stored record exactly when every datetime in the record sits at top
    level: if each top-level value is either itself a datetime or
    datetime-free, the normalized record is serializable. -/
theorem C5_normalize_serializable (bot : PyDict)
    (h : ∀ kv ∈ bot, topNormalizable kv.2 = true) :
    noDT (.obj (normalize_for_json bot)) = true := by
  induction bot with
  | nil => rfl
  | cons kv rest ih =>
      obtain ⟨k, v⟩ := kv
      have hv : topNormalizable v = true := h (k, v) (List.mem_cons_self _ _)
      have hrest := ih (fun kv hkv => h kv (List.mem_cons_of_mem _ hkv))
      cases v <;>
        simp_all [normalize_for_json, noDT, noDTFields, topNormalizable]

/-- C5 witness: a record with a top-level datetime is serializable after
    normalization. -/
theorem C5_normalize_serializable_witness :
    noDT (.obj (normalize_for_json
      [("created_at", .datetime 7), ("id", .str "b")])) = true :=
  C5_normalize_serializable _ (by decide)

/-- C8 (confirmed): for a container known to the engine, stop_container
    returns true when the OS signalling does not itself fail; if the
    container had a started child process, the updated container records
    the exit code, moves to EXITED, and stamps stopped_at; a
    created-but-never-started container yields true with its metadata
    untouched. -/
theorem C8_stop_container (eng : Engine) (name : String) (c : Container)
    (env : ContStopEnv) (now : Nat)
    (hc : eng.lookup name = some c) (hsig : env.signalFails = false) :
    stop_container eng name env now =
      .ok (true, eng.map (fun kv =>
        if kv.1 = name then (kv.1, (containerStop c env now).2) else kv)) ∧
    (∀ pid, c.processHandle = some pid →
      (containerStop c env now).2.meta.exitCode = env.pollResult ∧
      (containerStop c env now).2.meta.state = ContState.exited ∧
      (containerStop c env now).2.meta.stoppedAt = some now) ∧
    (c.processHandle = none → (containerStop c env now).2 = c) := by
  refine ⟨?_, ?_, ?_⟩
  · unfold stop_container
    rw [hc]
    cases hp : c.processHandle <;> simp [containerStop, hp, hsig]
  · intro pid hp
    simp [containerStop, hp, hsig]
  · intro hp
    simp [containerStop, hp]

/-- C8 witness: the theorem applied to a one-container engine whose
    container has a started child process. -/
theorem C8_stop_container_witness :
    stop_container
        [("bot-b1", ⟨⟨"bot-b1", .running, some 41, some 1, none, none⟩, some 41⟩)]
        "bot-b1" ⟨false, some 0⟩ 9 =
      .ok (true, [("bot-b1",
        ⟨⟨"bot-b1", .exited, some 41, some 1, some 9, some 0⟩, some 41⟩)]) :=
  ((C8_stop_container
      [("bot-b1", ⟨⟨"bot-b1", .running, some 41, some 1, none, none⟩, some 41⟩)]
      "bot-b1" ⟨⟨"bot-b1", .running, some 41, some 1, none, none⟩, some 41⟩
      ⟨false, some 0⟩ 9 rfl rfl).1)

/-- C9 (confirmed): stop_bot on a bot tracked neither as a container nor
    as a process returns false and leaves the registry untouched (no
    record changes, nothing persisted). -/
theorem C9_stop_bot_untracked (ex : ExecState) (reg : Registry)
    (botId reason : String) (env : StopBotEnv) (now : Nat)
    (hc : ex.runningContainers.lookup botId = none)
    (hp : ex.runningProcesses.lookup botId = none) :
    (stop_bot ex reg botId reason env now).1 = false ∧
    (stop_bot ex reg botId reason env now).2.2 = reg := by
  unfold stop_bot
  simp [hc, hp]

/-- C9 witness: the theorem applied to a sample state with an untracked
    bot id. -/
theorem C9_stop_bot_untracked_witness :
    (stop_bot sampleExec sampleReg "b1" "Manual stop" ⟨some true, none, false, "x"⟩ 4).1 = false ∧
    (stop_bot sampleExec sampleReg "b1" "Manual stop" ⟨some true, none, false, "x"⟩ 4).2.2 = sampleReg :=
  C9_stop_bot_untracked sampleExec sampleReg "b1" "Manual stop"
    ⟨some true, none, false, "x"⟩ 4 rfl rfl

/-- C10 (confirmed): whatever the outcome, stop_bot leaves the bot id
    absent from all four tracking maps (they are popped unconditionally
    at entry and never re-added), so is_bot_running is false afterwards. -/
theorem C10_stop_bot_untracks (ex : ExecState) (reg : Registry)
    (botId reason : String) (env : StopBotEnv) (now : Nat) :
    ((stop_bot ex reg botId reason env now).2.1.runningProcesses.lookup botId = none) ∧
    ((stop_bot ex reg botId reason env now).2.1.runningPsutil.lookup botId = none) ∧
    ((stop_bot ex reg botId reason env now).2.1.processCreationTime.lookup botId = none) ∧
    ((stop_bot ex reg botId reason env now).2.1.runningContainers.lookup botId = none) ∧
    is_bot_running (stop_bot ex reg botId reason env now).2.1 botId = false := by
  have hx : (stop_bot ex reg botId reason env now).2.1 =
      { runningProcesses := popKey ex.runningProcesses botId,
        runningPsutil := popKey ex.runningPsutil botId,
        processCreationTime := popKey ex.processCreationTime botId,
        runningContainers := popKey ex.runningContainers botId } := by
    unfold stop_bot
    rcases hc : ex.runningContainers.lookup botId with _ | cn
    · rcases hp : ex.runningProcesses.lookup botId with _ | ph
      · simp [hc, hp]
      · rcases env with ⟨s1, s2, pk, em⟩
        cases pk <;> rcases hb : regGet reg botId with _ | b <;> simp [hc, hp, hb]
    · rcases env with ⟨s1, s2, pk, em⟩
      rcases s1 with _ | ok1
      · simp [hc]
      · cases ok1 <;> rcases hb : regGet reg botId with _ | b <;>
          rcases s2 with _ | ok2 <;> simp [hc, hb]
  rw [hx]
  simp [is_bot_running, lookup_popKey]

/-- C7 counterexample: register_bot keys the cache by the STRIPPED id,
    so a record whose id carries surrounding whitespace registers
    successfully but a subsequent get_bot_by_id with the original id
    finds nothing. -/
theorem C7_counterexample :
    register_bot [] [("id", .str " x ")] =
      .ok [("x", [("id", .str " x ")])] ∧
    get_bot_by_id [("x", [("id", .str " x ")])] " x " = none :=
  ⟨rfl, rfl⟩

/-- C7 (amended): for every record whose string id equals its own
    whitespace-strip and is non-empty and not yet registered,
    register_bot stores the normalized record, get_bot_by_id returns
    exactly that normalized record, and a second register_bot with the
    same id fails with the already-exists error, leaving the cache as
    the error path returns before any mutation. -/
theorem C7_register_roundtrip (cache : Cache) (r : PyDict) (bid : String)
    (hid : pyStr (dictGet r "id" (.str "")) = bid)
    (htrim : pyStrip bid = bid)
    (hne : bid ≠ "")
    (hnew : cache.lookup bid = none) :
    register_bot cache r = .ok ((bid, normalize_for_json r) :: cache) ∧
    get_bot_by_id ((bid, normalize_for_json r) :: cache) bid =
      some (normalize_for_json r) ∧
    register_bot ((bid, normalize_for_json r) :: cache) r =
      .error ("Bot with ID '" ++ bid ++ "' already exists") := by
  have hkey : pyStrip (pyStr (dictGet r "id" (.str ""))) = bid := by
    rw [hid, htrim]
  refine ⟨?_, ?_, ?_⟩
  · unfold register_bot
    simp [hkey, hne, hnew]
  · unfold get_bot_by_id
    simp [List.lookup]
  · unfold register_bot
    simp [hkey, hne, List.lookup]

/-- Sample record used by the C7 witness. -/
def sampleDict : PyDict := [("id", .str "b1"), ("created_at", .datetime 3)]

/-- C7 witness: the amended round trip at a concrete record with a
    clean id and a top-level datetime. -/
theorem C7_register_roundtrip_witness :
    register_bot [] sampleDict = .ok [("b1", normalize_for_json sampleDict)] ∧
    get_bot_by_id [("b1", normalize_for_json sampleDict)] "b1" =
      some (normalize_for_json sampleDict) ∧
    register_bot [("b1", normalize_for_json sampleDict)] sampleDict =
      .error ("Bot with ID 'b1' already exists") :=
  C7_register_roundtrip [] sampleDict "b1" rfl rfl (by decide) rfl

/-- C1 (confirmed): in a container deployment mode, a ContainerError
    from the container path makes run_bot mark last_error, increment
    error_count and persist (trace position 1) before attempting the
    local fallback; a successful fallback yields True with the bot
    RUNNING and process-tracked; a failing fallback persists the record
    with status ERROR, the combined last_error and a twice-incremented
    error_count (trace position 2), persists the outer handler's record
    last, and re-raises the local error to the caller. -/
theorem C1_container_fallback (env : RunEnv) (ex : ExecState) (bot : BotRec)
    (now : Nat) (e : String)
    (hmode : isContainerMode bot.deploymentType = true)
    (hscript : env.scriptExists = true)
    (hcont : env.containerOutcome = .error e) :
    ((run_bot env ex bot now).trace.take 2 =
      [{ bot with status := "deploying", updatedAt := some now },
       { bot with status := "deploying", updatedAt := some now,
                  lastError := some ("Container failed; fallback to local: " ++ e),
                  errorCount := bot.errorCount + 1 }]) ∧
    (∀ pid, env.localOutcome = .ok pid →
      (run_bot env ex bot now).result = .ok true ∧
      (run_bot env ex bot now).bot.status = "running" ∧
      (run_bot env ex bot now).exec.runningProcesses.lookup bot.id = some pid) ∧
    (∀ le, env.localOutcome = .error le →
      (run_bot env ex bot now).result = .error le ∧
      (run_bot env ex bot now).trace.get? 2 =
        some { bot with status := "error",
                        lastError := some ("Container failed (" ++ e ++
                          "); local fallback failed (" ++ pyErrMsg le ++ ")"),
                        errorCount := bot.errorCount + 2, updatedAt := some now } ∧
      (run_bot env ex bot now).trace.getLast? = some (run_bot env ex bot now).bot) := by
  refine ⟨?_, ?_, ?_⟩
  · rcases hl : env.localOutcome with le | pid <;>
      · unfold run_bot
        simp [hscript, hmode, hcont, hl]
  · intro pid hl
    unfold run_bot
    simp [hscript, hmode, hcont, hl, List.lookup]
  · intro le hl
    unfold run_bot
    rcases le with m | m | m | m <;>
      simp [hscript, hmode, hcont, hl, outerHandle, pyErrMsg]

/-- Run environment used by the C1 witness: container path fails, local
    fallback fails too. -/
def fallbackEnv : RunEnv :=
  { scriptExists := true, containerOutcome := .error "cfail",
    localOutcome := .error (.otherErr "boom") }

/-- C1 witness: the theorem at a concrete bot, environment and instant. -/
theorem C1_container_fallback_witness :
    ((run_bot fallbackEnv sampleExec sampleBot 5).trace.take 2 =
      [{ sampleBot with status := "deploying", updatedAt := some 5 },
       { sampleBot with
                  status := "deploying", updatedAt := some 5,
                  lastError := some ("Container failed; fallback to local: cfail"),
                  errorCount := sampleBot.errorCount + 1 }]) ∧
    (run_bot fallbackEnv sampleExec sampleBot 5).result = .error (.otherErr "boom") ∧
    (run_bot fallbackEnv sampleExec sampleBot 5).trace.get? 2 =
      some { sampleBot with
             status := "error",
             lastError := some ("Container failed (cfail); local fallback failed (boom)"),
             errorCount := sampleBot.errorCount + 2, updatedAt := some 5 } ∧
    (run_bot fallbackEnv sampleExec sampleBot 5).trace.getLast? =
      some (run_bot fallbackEnv sampleExec sampleBot 5).bot :=
  ⟨(C1_container_fallback fallbackEnv sampleExec sampleBot 5 "cfail" rfl rfl rfl).1,
   (C1_container_fallback fallbackEnv sampleExec sampleBot 5 "cfail" rfl rfl rfl).2.2
      (.otherErr "boom") rfl⟩

/-- Facts about the RestartState transition used by the supervisor
    theorems: handle_unhealthy changes the state exactly as stStep. -/
theorem handle_st (mf : Nat) (bot : BotRec) (st : RestartState) (now : Nat)
    (env : HealEnv) :
    (handle_unhealthy mf bot st now env).st = stStep mf st now := by
  unfold handle_unhealthy stStep
  by_cases hg : gateOpen st now = true
  · by_cases hq : st.failures + 1 > mf
    · simp [hg, hq]
    · rcases hf : env.firstRun with _ | e
      · simp [hg, hq, hf]
      · by_cases hm : isContainerMode bot.deploymentType = true
        · rcases hfb : env.fallbackRun with _ | e2 <;> simp [hg, hq, hf, hm, hfb]
        · simp [hg, hq, hf, hm]
  · simp [hg]

/-- Closed backoff gate: handle_unhealthy is a complete no-op — state,
    bot, incidents, writes, and executor calls all untouched. -/
theorem handle_closed (mf : Nat) (bot : BotRec) (st : RestartState) (now : Nat)
    (env : HealEnv) (hg : gateOpen st now = false) :
    handle_unhealthy mf bot st now env =
      { bot := bot, st := st, incidents := [], writes := [],
        runCalls := 0, stopCalled := false } := by
  unfold handle_unhealthy
  simp [hg]

/-- Gated non-quarantine call: status untouched, last_error untouched,
    no quarantined incident, and the backoff deadline is set to
    now + min(60, 2 ^ (failures + 1)). -/
theorem handle_nonquar (mf : Nat) (bot : BotRec) (st : RestartState) (now : Nat)
    (env : HealEnv) (hg : gateOpen st now = true)
    (hle : st.failures + 1 ≤ mf) :
    (handle_unhealthy mf bot st now env).bot.status = bot.status ∧
    (handle_unhealthy mf bot st now env).bot.lastError = bot.lastError ∧
    countQuar (handle_unhealthy mf bot st now env).incidents = 0 ∧
    (handle_unhealthy mf bot st now env).st.nextAllowedAt =
      some (now + backoffDelay (st.failures + 1)) := by
  have hq : ¬ st.failures + 1 > mf := not_lt.mpr hle
  unfold handle_unhealthy
  rcases hf : env.firstRun with _ | e
  · simp [hg, hq, hf, countQuar]
  · by_cases hm : isContainerMode bot.deploymentType = true
    · rcases hfb : env.fallbackRun with _ | e2 <;>
        simp [hg, hq, hf, hm, hfb, countQuar]
    · simp [hg, hq, hf, hm, countQuar]

/-- Gated quarantine call: the whole observable result of
    handle_unhealthy when the incremented failure count exceeds
    max_failures. -/
theorem handle_quar (mf : Nat) (bot : BotRec) (st : RestartState) (now : Nat)
    (env : HealEnv) (hg : gateOpen st now = true)
    (hgt : mf < st.failures + 1) :
    handle_unhealthy mf bot st now env =
      { bot := { bot with
                 status := "error",
                 lastError := some (quarantineMsg (st.failures + 1)),
                 updatedAt := some now },
        st := { st with failures := st.failures + 1, lastAttemptAt := some now },
        incidents := [⟨bot.id, "quarantined", quarantineMsg (st.failures + 1)⟩],
        writes := [{ bot with
                 status := "error",
                 lastError := some (quarantineMsg (st.failures + 1)),
                 updatedAt := some now }],
        runCalls := 0, stopCalled := false } := by
  unfold handle_unhealthy
  simp [hg, hgt]

/-- Failure counter of the state transition under an open gate. -/
theorem stStep_failures (mf : Nat) (st : RestartState) (now : Nat)
    (hg : gateOpen st now = true) :
    (stStep mf st now).failures = st.failures + 1 := by
  unfold stStep
  by_cases hq : st.failures + 1 > mf <;> simp [hg, hq]

/-- Core induction for C2: from a state whose failure counter needs
    exactly the remaining steps to exceed max_failures, an all-gated run
    ends in the quarantined record, emits exactly one quarantined
    incident, and persists the quarantined record last. -/
theorem runSteps_quarantine (mf : Nat) :
    ∀ (steps : List (Nat × HealEnv)) (bot : BotRec) (st : RestartState),
      st.failures + steps.length = mf + 1 → 1 ≤ steps.length →
      allGated mf st steps = true →
      (runSteps mf bot st steps).1.status = "error" ∧
      (runSteps mf bot st steps).1.lastError = some (quarantineMsg (mf + 1)) ∧
      countQuar (runSteps mf bot st steps).2.2.1 = 1 ∧
      (runSteps mf bot st steps).2.2.2.getLast? = some (runSteps mf bot st steps).1 := by
  intro steps
  induction steps with
  | nil =>
      intro bot st _ h2 _
      exact absurd h2 (by decide)
  | cons te rest ih =>
      intro bot st hlen hpos hg
      obtain ⟨t, e⟩ := te
      have hg' : gateOpen st t = true ∧ allGated mf (stStep mf st t) rest = true := by
        simpa [allGated] using hg
      cases rest with
      | nil =>
          have hfail : st.failures = mf := by
            simpa using hlen
          have hq := handle_quar mf bot st t e hg'.1 (by omega)
          simp [runSteps, hq, countQuar, hfail, quarantineMsg]
      | cons te2 rest2 =>
          have hle : st.failures + 1 ≤ mf := by
            simp [List.length_cons] at hlen
            omega
          have hnq := handle_nonquar mf bot st t e hg'.1 hle
          have hst := handle_st mf bot st t e
          have ihlen : (handle_unhealthy mf bot st t e).st.failures +
              (te2 :: rest2).length = mf + 1 := by
            rw [hst, stStep_failures mf st t hg'.1]
            simp [List.length_cons] at hlen ⊢
            omega
          have ih' := ih (handle_unhealthy mf bot st t e).bot
            (handle_unhealthy mf bot st t e).st ihlen (by simp)
            (by rw [hst]; exact hg'.2)
          have hwne : (runSteps mf (handle_unhealthy mf bot st t e).bot
              (handle_unhealthy mf bot st t e).st (te2 :: rest2)).2.2.2 ≠ [] := by
            intro hnil
            rw [hnil] at ih'
            simp at ih'
          refine ⟨?_, ?_, ?_, ?_⟩
          · simpa [runSteps] using ih'.1
          · simpa [runSteps] using ih'.2.1
          · have hcq : countQuar ((handle_unhealthy mf bot st t e).incidents ++
                (runSteps mf (handle_unhealthy mf bot st t e).bot
                  (handle_unhealthy mf bot st t e).st (te2 :: rest2)).2.2.1) = 1 := by
              rw [countQuar, List.filter_append, List.length_append,
                ← countQuar, ← countQuar, hnq.2.2.1, ih'.2.2.1]
            simpa [runSteps] using hcq
          · have hgl : ((handle_unhealthy mf bot st t e).writes ++
                (runSteps mf (handle_unhealthy mf bot st t e).bot
                  (handle_unhealthy mf bot st t e).st (te2 :: rest2)).2.2.2).getLast? =
                some (runSteps mf (handle_unhealthy mf bot st t e).bot
                  (handle_unhealthy mf bot st t e).st (te2 :: rest2)).1 := by
              rw [List.getLast?_append_of_ne_nil _ hwne]
              exact ih'.2.2.2
            simpa [runSteps] using hgl

/-- C2 (confirmed): with max_failures ≥ 1, a fresh restart state, and
    max_failures + 1 consecutive unhealthy handlings each past its
    backoff gate, the final record has status ERROR with the quarantine
    message as last_error, exactly one quarantined incident is emitted
    over the whole run, the quarantined record is the last registry
    write, and the tick filter no longer supervises the quarantined bot
    (only RUNNING and DEPLOYING pass). -/
theorem C2_quarantine (mf : Nat) (bot : BotRec) (steps : List (Nat × HealEnv))
    (hmf : 1 ≤ mf) (hlen : steps.length = mf + 1)
    (hg : allGated mf freshRestartState steps = true) :
    (runSteps mf bot freshRestartState steps).1.status = "error" ∧
    (runSteps mf bot freshRestartState steps).1.lastError =
      some (quarantineMsg (mf + 1)) ∧
    countQuar (runSteps mf bot freshRestartState steps).2.2.1 = 1 ∧
    (runSteps mf bot freshRestartState steps).2.2.2.getLast? =
      some (runSteps mf bot freshRestartState steps).1 ∧
    tickSupervises (runSteps mf bot freshRestartState steps).1 = false := by
  have h := runSteps_quarantine mf steps bot freshRestartState
    (by simp [freshRestartState, hlen]) (by omega) hg
  refine ⟨h.1, h.2.1, h.2.2.1, h.2.2.2, ?_⟩
  simp [tickSupervises, h.1]

/-- Heal environment used by the supervisor witnesses: both executor
    restart attempts raise. -/
def failEnv : HealEnv := { firstRun := some "down", fallbackRun := some "down2" }

/-- C2 witness: max_failures = 1, two gated unhealthy handlings at
    instants 0 and 2 (the backoff deadline after the first is 0 + 2). -/
theorem C2_quarantine_witness :
    (runSteps 1 sampleBot freshRestartState [(0, failEnv), (2, failEnv)]).1.status = "error" ∧
    (runSteps 1 sampleBot freshRestartState [(0, failEnv), (2, failEnv)]).1.lastError =
      some (quarantineMsg 2) ∧
    countQuar (runSteps 1 sampleBot freshRestartState [(0, failEnv), (2, failEnv)]).2.2.1 = 1 ∧
    (runSteps 1 sampleBot freshRestartState [(0, failEnv), (2, failEnv)]).2.2.2.getLast? =
      some (runSteps 1 sampleBot freshRestartState [(0, failEnv), (2, failEnv)]).1 ∧
    tickSupervises (runSteps 1 sampleBot freshRestartState [(0, failEnv), (2, failEnv)]).1 = false :=
  C2_quarantine 1 sampleBot [(0, failEnv), (2, failEnv)] (by decide) rfl (by decide)

/-- C3 (confirmed): the backoff gate.  (a) While now < next_allowed_at
    the handler returns immediately: no failure increment, no incident,
    no registry write, no executor call.  (b) A gated call that does not
    quarantine sets next_allowed_at = now + min(60, 2 ^ failures) with
    failures the freshly incremented counter.  (c) Hence any second
    invocation strictly earlier than that deadline is a complete no-op:
    two successive effective heal attempts are separated by at least
    min(60, 2 ^ failures) seconds. -/
theorem C3_backoff (mf : Nat) (bot : BotRec) (st : RestartState)
    (t1 t2 : Nat) (env env2 : HealEnv) :
    (∀ t, st.nextAllowedAt = some t → t2 < t →
      handle_unhealthy mf bot st t2 env2 =
        { bot := bot, st := st, incidents := [], writes := [],
          runCalls := 0, stopCalled := false }) ∧
    (gateOpen st t1 = true → st.failures + 1 ≤ mf →
      (handle_unhealthy mf bot st t1 env).st.nextAllowedAt =
        some (t1 + min 60 (2 ^ (st.failures + 1)))) ∧
    (gateOpen st t1 = true → st.failures + 1 ≤ mf →
      t2 < t1 + min 60 (2 ^ (st.failures + 1)) →
      handle_unhealthy mf (handle_unhealthy mf bot st t1 env).bot
          (handle_unhealthy mf bot st t1 env).st t2 env2 =
        { bot := (handle_unhealthy mf bot st t1 env).bot,
          st := (handle_unhealthy mf bot st t1 env).st,
          incidents := [], writes := [], runCalls := 0, stopCalled := false }) := by
  refine ⟨?_, ?_, ?_⟩
  · intro t hnext hlt
    refine handle_closed mf bot st t2 env2 ?_
    simp [gateOpen, hnext]
    omega
  · intro hg hle
    exact (handle_nonquar mf bot st t1 env hg hle).2.2.2
  · intro hg hle hlt
    refine handle_closed mf _ _ t2 env2 ?_
    have hn := (handle_nonquar mf bot st t1 env hg hle).2.2.2
    rw [gateOpen]
    rw [hn]
    simp [backoffDelay]
    omega

/-- C3 witness: fresh state, first gated call at instant 0 fails to
    heal (backoff deadline 0 + min(60, 2) = 2), second invocation at
    instant 1 is a complete no-op. -/
theorem C3_backoff_witness :
    (handle_unhealthy 5 sampleBot freshRestartState 0 failEnv).st.nextAllowedAt =
      some (0 + min 60 (2 ^ (freshRestartState.failures + 1))) ∧
    handle_unhealthy 5 (handle_unhealthy 5 sampleBot freshRestartState 0 failEnv).bot
        (handle_unhealthy 5 sampleBot freshRestartState 0 failEnv).st 1 failEnv =
      { bot := (handle_unhealthy 5 sampleBot freshRestartState 0 failEnv).bot,
        st := (handle_unhealthy 5 sampleBot freshRestartState 0 failEnv).st,
        incidents := [], writes := [], runCalls := 0, stopCalled := false } :=
  ⟨(C3_backoff 5 sampleBot freshRestartState 0 1 failEnv failEnv).2.1 rfl (by decide),
   (C3_backoff 5 sampleBot freshRestartState 0 1 failEnv failEnv).2.2 rfl (by decide) (by decide)⟩

end Codex32
